import Mathlib

/-!
Verification of `release/pipeline/dags/istio_common_dag.py`.

The Python module builds Airflow DAGs for the istio release pipeline.  We give a
shallow embedding of its pure parts: configuration-layer merging
(`MergeEnvironmentIntoConfig`), the bootstrap-script builder
(`getBashSettingsTemplate`), the xcom-accessor template (`GetSettingTemplate`)
and the task table built by `MakeCommonDag`.

Python dictionaries are embedded as association lists (`DictS`) with
Python-dict semantics: assignment replaces in place, `get` returns the value of
the (unique) matching key, iteration is in insertion order.
-/

/-- A Python `dict` with string keys and string values, as an association list
in insertion order.  A well-formed dict has no duplicate keys. -/
def DictS : Type := List (String × String)

instance : DecidableEq DictS := by
  unfold DictS
  infer_instance

instance : Membership (String × String) DictS := by
  unfold DictS
  infer_instance

/-- `d.get(k)` of a Python dict: the value at the first (for a well-formed dict,
unique) occurrence of `k`, or `None`. -/
def dictGet (d : DictS) (k : String) : Option String :=
  match d with
  | [] => none
  | (k1, v) :: rest => if k = k1 then some v else dictGet rest k

/-- `d[k] = v` of a Python dict: replace the value in place if `k` is present,
otherwise append the binding at the end. -/
def dictInsert (d : DictS) (k v : String) : DictS :=
  match d with
  | [] => [(k, v)]
  | (k1, v1) :: rest =>
      if k = k1 then (k, v) :: rest else (k1, v1) :: dictInsert rest k v

/-- The keys of a dict, in order. -/
def dictKeys (d : DictS) : List String :=
  match d with
  | [] => []
  | (k1, _) :: rest => k1 :: dictKeys rest

/-- Python `x or value` for `x = env_conf.get(name)`: the env value wins
exactly when it is present and truthy (for strings: non-empty). -/
def pyOr (x : Option String) (value : String) : String :=
  match x with
  | none => value
  | some v => if v = "" then value else v

/-- The inner loop of `MergeEnvironmentIntoConfig`:
`for name, value in cur_conf_dict.items(): config_settings[name] = env_conf.get(name) or value`. -/
def mergeOneLayer (env_conf : DictS) (config_settings : DictS) (cur_conf_dict : DictS) : DictS :=
  match cur_conf_dict with
  | [] => config_settings
  | (name, value) :: rest =>
      mergeOneLayer env_conf (dictInsert config_settings name (pyOr (dictGet env_conf name) value)) rest

/-- The outer loop of `MergeEnvironmentIntoConfig` over `config_dicts`. -/
def mergeAllLayers (env_conf : DictS) (config_settings : DictS) (config_dicts : List DictS) : DictS :=
  match config_dicts with
  | [] => config_settings
  | cur :: rest => mergeAllLayers env_conf (mergeOneLayer env_conf config_settings cur) rest

/-- `MergeEnvironmentIntoConfig(env_conf, *config_dicts)` from the source:
starts from an empty `config_settings` dict and folds every layer in argument
order, each key receiving `env_conf.get(name) or value`. -/
def MergeEnvironmentIntoConfig (env_conf : DictS) (config_dicts : List DictS) : DictS :=
  mergeAllLayers env_conf [] config_dicts

/-- Spec-side description of layer precedence: the value of the last layer (in
argument order) defining `k`, if any. -/
def lastLayerValue (config_dicts : List DictS) (k : String) : Option String :=
  match config_dicts with
  | [] => none
  | cur :: rest =>
      match lastLayerValue rest k with
      | some v => some v
      | none => dictGet cur k

/-- A layer is a well-formed Python dict: its keys are pairwise distinct. -/
def WellFormedDict (d : DictS) : Prop := (dictKeys d).Nodup

instance (d : DictS) : Decidable (WellFormedDict d) := by
  unfold WellFormedDict
  infer_instance

theorem dictGet_dictInsert (d : DictS) (k v k' : String) :
    dictGet (dictInsert d k v) k' = if k' = k then some v else dictGet d k' := by
  induction d with
  | nil => simp [dictInsert, dictGet]
  | cons p rest ih =>
      obtain ⟨k1, v1⟩ := p
      by_cases h1 : k = k1
      · subst h1
        by_cases h2 : k' = k <;> simp [dictInsert, dictGet, h2]
      · by_cases h2 : k' = k1
        · subst h2
          simp [dictInsert, dictGet, h1, Ne.symm h1]
        · simp [dictInsert, dictGet, h1, h2, ih]

theorem dictGet_eq_none_of_not_mem_keys (d : DictS) (k : String)
    (h : k ∉ dictKeys d) : dictGet d k = none := by
  induction d with
  | nil => simp [dictGet]
  | cons p rest ih =>
      obtain ⟨k1, v1⟩ := p
      simp only [dictKeys, List.mem_cons, not_or] at h
      simp [dictGet, h.1, ih h.2]

theorem mergeOneLayer_get_of_not_mem (env acc : DictS) (L : DictS) (k : String)
    (h : k ∉ dictKeys L) :
    dictGet (mergeOneLayer env acc L) k = dictGet acc k := by
  induction L generalizing acc with
  | nil => simp [mergeOneLayer]
  | cons p rest ih =>
      obtain ⟨k1, v1⟩ := p
      simp only [dictKeys, List.mem_cons, not_or] at h
      rw [mergeOneLayer, ih _ h.2, dictGet_dictInsert]
      simp [h.1]

theorem mergeOneLayer_get (env acc : DictS) (L : DictS) (k : String)
    (hwf : WellFormedDict L) :
    dictGet (mergeOneLayer env acc L) k =
      match dictGet L k with
      | some v => some (pyOr (dictGet env k) v)
      | none => dictGet acc k := by
  induction L generalizing acc with
  | nil => simp [mergeOneLayer, dictGet]
  | cons p rest ih =>
      obtain ⟨k1, v1⟩ := p
      have hwf' : WellFormedDict rest := (List.nodup_cons.mp hwf).2
      have hk1 : k1 ∉ dictKeys rest := (List.nodup_cons.mp hwf).1
      by_cases h : k = k1
      · subst h
        rw [mergeOneLayer, mergeOneLayer_get_of_not_mem _ _ _ _ hk1,
          dictGet_dictInsert]
        simp [dictGet]
      · rw [mergeOneLayer, ih _ hwf']
        simp only [dictGet, h, if_false]
        cases dictGet rest k with
        | none => simp [dictGet_dictInsert, h]
        | some v => simp

theorem mergeAllLayers_get (env acc : DictS) (layers : List DictS) (k : String)
    (hwf : ∀ L ∈ layers, WellFormedDict L) :
    dictGet (mergeAllLayers env acc layers) k =
      match lastLayerValue layers k with
      | some v => some (pyOr (dictGet env k) v)
      | none => dictGet acc k := by
  induction layers generalizing acc with
  | nil => simp [mergeAllLayers, lastLayerValue]
  | cons L rest ih =>
      rw [mergeAllLayers, ih _ (fun M hM => hwf M (List.mem_cons_of_mem _ hM))]
      rw [lastLayerValue]
      cases lastLayerValue rest k with
      | some v => simp
      | none =>
          simp only
          rw [mergeOneLayer_get _ _ _ _ (hwf L (List.mem_cons_self _ _))]

theorem lastLayerValue_isSome_iff (layers : List DictS) (k : String) :
    (lastLayerValue layers k).isSome = true ↔
      ∃ L ∈ layers, (dictGet L k).isSome = true := by
  induction layers with
  | nil => simp [lastLayerValue]
  | cons L rest ih =>
      rw [lastLayerValue]
      cases h : lastLayerValue rest k with
      | some v =>
          simp only [Option.isSome_some, true_iff]
          obtain ⟨M, hM, hMk⟩ := ih.mp (by simp [h])
          exact ⟨M, List.mem_cons_of_mem _ hM, hMk⟩
      | none =>
          rw [h] at ih
          simp only [Option.isSome_none, Bool.false_eq_true, false_iff,
            not_exists] at ih
          constructor
          · intro hk
            exact ⟨L, List.mem_cons_self _ _, hk⟩
          · rintro ⟨M, hM, hMk⟩
            rcases List.mem_cons.mp hM with rfl | hM'
            · exact hMk
            · exact absurd ⟨hM', hMk⟩ (ih M)

/-! ## The bootstrap-script builder (`getBashSettingsTemplate`)

In the source, the known keys come from
`environment_config.GetDefaultAirflowConfigKeys()`; the module
`environment_config` is part of the repository but not under `src/`, so the
known-key list is taken as an explicit parameter `knownKeys` everywhere below.
All other text is transcribed literally from the source (braces written as
`\x7b`/`\x7d` escapes, apostrophes as `\x27`). -/

/-- Code-point lexicographic comparison of character lists: the order Python
string comparison (and hence `list.sort()` on strings) uses. -/
def lexLe : List Char → List Char → Bool
  | [], _ => true
  | _ :: _, [] => false
  | a :: as, b :: bs =>
      if a.toNat < b.toNat then true
      else if b.toNat < a.toNat then false
      else lexLe as bs

/-- Python `a <= b` on strings. -/
def pyLe (a b : String) : Bool := lexLe a.data b.data

/-- Python `s.startswith(pre)`. -/
def pyStartsWith (s pre : String) : Bool := List.isPrefixOf pre.data s.data

/-- Python `s.endswith(suf)` (used to model the shell globs `*sh`, `*json`). -/
def pyEndsWith (s suf : String) : Bool := List.isSuffixOf suf.data s.data

/-- The deferred-accessor reference rendered into every template: it pulls the
mapping published by the `generate_workflow_args` task. -/
def xcomPullRef : String :=
  "task_instance.xcom_pull(task_ids=\x27generate_workflow_args\x27)"

/-- `template_prefix` of the source: binds `settings` to the resolver output. -/
def template_settings_line : String :=
  "\x7b% set settings = " ++ xcomPullRef ++ " %\x7d"

/-- `gcb_env_prefix` of the source: opens the heredoc writing `/tmp/gcb_env.sh`. -/
def gcb_env_open : String :=
  "cat << EOF > \"/tmp/gcb_env.sh\""

/-- `gcb_env_suffix` of the source: closes the heredoc. -/
def gcb_env_suffix : String := "EOF"

/-- `"export %s={{ settings.%s }}" % (key, key)` of the source. -/
def exportStatement (key : String) : String :=
  "export " ++ key ++ "=\x7b\x7b settings." ++ key ++ " \x7d\x7d"

/-- The trailing triple-quoted literal appended to `template_list`: the fixed
remote-sync/override sequence, transcribed byte for byte. -/
def remoteSyncTail : String :=
  "\n                source    \"/tmp/gcb_env.sh\""
  ++ "\n                # download gcb_env.sh if it exists, otherwise the local copy will be uploaded"
  ++ "\n                gsutil -q cp \"gs://$\x7bCB_GCS_RELEASE_TOOLS_PATH\x7d/gcb_env.sh\" \"/tmp/gcb_env.sh\""
  ++ "\n                source    \"/tmp/gcb_env.sh\""
  ++ "\n                gsutil -q cp \"/tmp/gcb_env.sh\" \"gs://$\x7bCB_GCS_RELEASE_TOOLS_PATH\x7d/\""
  ++ "\n                # cloning master allows us to use master code to do builds for all releases, if this needs to"
  ++ "\n                # be changed because of future incompatible changes"
  ++ "\n                # we just need to clone the compatible SHA here and in get_commit.template.json"
  ++ "\n                git clone \"https://github.com/$\x7bCB_GITHUB_ORG\x7d/istio.git\" \"istio-code\" -b \"master\" --depth 1"
  ++ "\n                # use code from branch"
  ++ "\n                cp istio-code/release/pipeline/*sh istio-code/release/gcb/json_parse_shared.sh istio-code/release/gcb/*json ."
  ++ "\n                # or override with scripts saved for this build"
  ++ "\n                gsutil -mq cp \"gs://$\x7bCB_GCS_RELEASE_TOOLS_PATH\x7d\"/pipeline/*sh ."
  ++ "\n                gsutil -mq cp \"gs://$\x7bCB_GCS_RELEASE_TOOLS_PATH\x7d\"/gcb/*json ."
  ++ "\n                gsutil -mq cp \"gs://$\x7bCB_GCS_RELEASE_TOOLS_PATH\x7d\"/gcb/json_parse_shared.sh ."
  ++ "\n                source airflow_scripts.sh  "

/-- The key list of the builder: `keys = GetDefaultAirflowConfigKeys()`, then
`keys.append(key)` for each extra key, then `keys.sort()`.  Note the source
appends; it does not deduplicate. -/
def buildKeys (knownKeys extra_param_lst : List String) : List String :=
  List.insertionSort (fun a b => pyLe a b = true) (knownKeys ++ extra_param_lst)

/-- First loop of the source: `if key.startswith("CB_")`, append the export
statement to the heredoc block. -/
def gcbExportLines (keys : List String) : List String :=
  (keys.filter (fun k => pyStartsWith k "CB_")).map exportStatement

/-- Second loop of the source: `if not key.startswith("CB_")`, append the
export statement to the local block. -/
def localExportLines (keys : List String) : List String :=
  (keys.filter (fun k => !(pyStartsWith k "CB_"))).map exportStatement

/-- `template_list` as built by the source, in order. -/
def templateList (knownKeys extra_param_lst : List String) : List String :=
  template_settings_line :: gcb_env_open ::
    (gcbExportLines (buildKeys knownKeys extra_param_lst)
      ++ [gcb_env_suffix]
      ++ localExportLines (buildKeys knownKeys extra_param_lst)
      ++ [remoteSyncTail])

/-- Python `sep.join(lst)`. -/
def pyJoin (sep : String) : List String → String
  | [] => ""
  | [s] => s
  | s :: rest => s ++ sep ++ pyJoin sep rest

/-- `getBashSettingsTemplate(extra_param_lst)` of the source, with the known
keys of `environment_config` as an explicit first parameter. -/
def getBashSettingsTemplate (knownKeys extra_param_lst : List String) : String :=
  pyJoin "\n" (templateList knownKeys extra_param_lst)

/-- `GetSettingTemplate(setting)` of the source: the deferred template string
that resolves `setting` from the resolver output at render time. -/
def GetSettingTemplate (setting : String) : String :=
  "\x7b\x7b task_instance.xcom_pull(task_ids=\"generate_workflow_args\")."
    ++ setting ++ " \x7d\x7d"

/-! ## The task table built by `MakeCommonDag` -/

inductive OperatorKind where
  | pythonOp
  | bashOp
  | gcsCopyOp
deriving DecidableEq

/-- One Airflow task as constructed by the source: the operator arguments that
the source passes, plus the arguments inherited from `default_args`.  The
source sets no upstream dependency on any task, so `upstream` records the
dependency edges declared at construction time. -/
structure AirflowTask where
  task_id : String
  kind : OperatorKind
  retries : Nat
  retry_delay_minutes : Nat
  email_on_failure : Bool
  bash_command : Option String
  source_bucket : Option String
  source_object : Option String
  destination_bucket : Option String
  destination_object : Option String
  upstream : List String
deriving DecidableEq

structure DefaultArgs where
  owner : String
  depends_on_past : Bool
  email_on_failure : Bool
  email_on_retry : Bool
  retries : Nat
  retry_delay_minutes : Nat
deriving DecidableEq

/-- The module-level `default_args` dict (its `start_date`, a wall-clock value,
and `email`, a list from `environment_config`, are not needed by any claim and
are omitted). -/
def default_args : DefaultArgs :=
  { owner := "rkrishnap"
    depends_on_past := false
    email_on_failure := true
    email_on_retry := false
    retries := 1
    retry_delay_minutes := 5 }

/-- The closure `addAirflowBashOperator(cmd_name, task_id, **kwargs)`:
`cmd = "\n".join([cmd_template, "type %s\n     %s" % (cmd_name, cmd_name)])`,
and a `BashOperator` with the dag-wide `default_args` unless `retries` is
overridden in kwargs. -/
def addAirflowBashOperator (cmd_template cmd_name task_id : String)
    (retriesOverride : Option Nat) : AirflowTask :=
  { task_id := task_id
    kind := OperatorKind.bashOp
    retries := retriesOverride.getD default_args.retries
    retry_delay_minutes := default_args.retry_delay_minutes
    email_on_failure := default_args.email_on_failure
    bash_command := some (cmd_template ++ "\n" ++ ("type " ++ cmd_name ++ "\n     " ++ cmd_name))
    source_bucket := none
    source_object := none
    destination_bucket := none
    destination_object := none
    upstream := [] }

/-- The `PythonOperator` task `generate_workflow_args` (the settings
resolver; its `python_callable` is the caller-supplied `dag_args_func`, not
needed by any claim). -/
def generate_flow_args_task : AirflowTask :=
  { task_id := "generate_workflow_args"
    kind := OperatorKind.pythonOp
    retries := default_args.retries
    retry_delay_minutes := default_args.retry_delay_minutes
    email_on_failure := default_args.email_on_failure
    bash_command := none
    source_bucket := none
    source_object := none
    destination_bucket := none
    destination_object := none
    upstream := [] }

/-- The `GoogleCloudStorageCopyOperator` task `copy_files_for_release`, with
exactly the arguments the source passes; `destination_object` is not passed
(the copied object keeps its name). -/
def copy_files_task : AirflowTask :=
  { task_id := "copy_files_for_release"
    kind := OperatorKind.gcsCopyOp
    retries := default_args.retries
    retry_delay_minutes := default_args.retry_delay_minutes
    email_on_failure := default_args.email_on_failure
    bash_command := none
    source_bucket := some (GetSettingTemplate "CB_GCS_BUILD_BUCKET")
    source_object := some (GetSettingTemplate "CB_GCS_STAGING_PATH")
    destination_bucket := some (GetSettingTemplate "CB_GCS_STAGING_BUCKET")
    destination_object := none
    upstream := [] }

structure CommonDag where
  dag_name : String
  schedule_interval : String
  catchup : Bool
  default_args : DefaultArgs
  tasks : List AirflowTask
deriving DecidableEq

/-- `MakeCommonDag(dag_args_func, name, schedule_interval, extra_param_lst)`:
the DAG with `catchup=False` and the task table in insertion order.  The
source registers the tasks in its `tasks` dict and returns it; it never calls
`set_upstream`/`set_downstream` on any task. -/
def MakeCommonDag (knownKeys : List String) (name schedule_interval : String)
    (extra_param_lst : List String) : CommonDag :=
  let cmd_template := getBashSettingsTemplate knownKeys extra_param_lst
  { dag_name := name
    schedule_interval := schedule_interval
    catchup := false
    default_args := default_args
    tasks :=
      [ generate_flow_args_task
      , addAirflowBashOperator cmd_template "get_git_commit_cmd" "get_git_commit" none
      , addAirflowBashOperator cmd_template "build_template" "run_cloud_builder" none
      , addAirflowBashOperator cmd_template "test_command" "run_release_qualification_tests" (some 0)
      , addAirflowBashOperator cmd_template "modify_values_command" "modify_values_helm" none
      , copy_files_task ] }

/-- Lookup in the returned `tasks` dict. -/
def CommonDag.findTask (d : CommonDag) (id : String) : Option AirflowTask :=
  d.tasks.find? (fun t => t.task_id == id)

/-! ## Order facts about `pyLe` (needed for the sort lemmas) -/

theorem lexLe_total : ∀ x y : List Char, lexLe x y = true ∨ lexLe y x = true
  | [], _ => Or.inl rfl
  | _ :: _, [] => Or.inr rfl
  | a :: as, b :: bs => by
      rcases Nat.lt_trichotomy a.toNat b.toNat with h | h | h
      · left
        simp [lexLe, h]
      · rcases lexLe_total as bs with h2 | h2
        · left
          simp [lexLe, h, Nat.lt_irrefl, h2]
        · right
          simp [lexLe, h.symm, Nat.lt_irrefl, h2]
      · right
        simp [lexLe, h]

theorem lexLe_trans : ∀ x y z : List Char,
    lexLe x y = true → lexLe y z = true → lexLe x z = true
  | [], _, _, _, _ => rfl
  | _ :: _, [], _, h1, _ => absurd h1 (by simp [lexLe])
  | _ :: _, _ :: _, [], _, h2 => absurd h2 (by simp [lexLe])
  | a :: as, b :: bs, c :: cs, h1, h2 => by
      simp only [lexLe] at h1 h2 ⊢
      rcases Nat.lt_trichotomy a.toNat b.toNat with hab | hab | hab
      · rcases Nat.lt_trichotomy b.toNat c.toNat with hbc | hbc | hbc
        · simp [show a.toNat < c.toNat by omega]
        · simp [show a.toNat < c.toNat by omega]
        · exfalso
          simp [show ¬ b.toNat < c.toNat by omega, hbc] at h2
      · rcases Nat.lt_trichotomy b.toNat c.toNat with hbc | hbc | hbc
        · simp [show a.toNat < c.toNat by omega]
        · have h1a : lexLe as bs = true := by
            simpa [show ¬ a.toNat < b.toNat by omega,
              show ¬ b.toNat < a.toNat by omega] using h1
          have h2a : lexLe bs cs = true := by
            simpa [show ¬ b.toNat < c.toNat by omega,
              show ¬ c.toNat < b.toNat by omega] using h2
          rw [if_neg (by omega), if_neg (by omega)]
          exact lexLe_trans as bs cs h1a h2a
        · exfalso
          simp [show ¬ b.toNat < c.toNat by omega, hbc] at h2
      · exfalso
        simp [show ¬ a.toNat < b.toNat by omega, hab] at h1

theorem lexLe_antisymm : ∀ x y : List Char,
    lexLe x y = true → lexLe y x = true → x = y
  | [], [], _, _ => rfl
  | [], _ :: _, _, h2 => absurd h2 (by simp [lexLe])
  | _ :: _, [], h1, _ => absurd h1 (by simp [lexLe])
  | a :: as, b :: bs, h1, h2 => by
      simp only [lexLe] at h1 h2
      rcases Nat.lt_trichotomy a.toNat b.toNat with hab | hab | hab
      · simp [show ¬ b.toNat < a.toNat by omega, hab] at h2
      · have h1a : lexLe as bs = true := by
          simpa [show ¬ a.toNat < b.toNat by omega,
            show ¬ b.toNat < a.toNat by omega] using h1
        have h2a : lexLe bs as = true := by
          simpa [show ¬ a.toNat < b.toNat by omega,
            show ¬ b.toNat < a.toNat by omega] using h2
        rw [Char.ext (UInt32.ext hab), lexLe_antisymm as bs h1a h2a]
      · simp [show ¬ a.toNat < b.toNat by omega, hab] at h1

instance : IsTotal String (fun a b => pyLe a b = true) :=
  ⟨fun a b => lexLe_total a.data b.data⟩

instance : IsTrans String (fun a b => pyLe a b = true) :=
  ⟨fun a b c => lexLe_trans a.data b.data c.data⟩

instance : IsAntisymm String (fun a b => pyLe a b = true) :=
  ⟨fun a b h1 h2 => by
    cases a with
    | mk da =>
        cases b with
        | mk db =>
            exact congrArg String.mk (lexLe_antisymm da db h1 h2)⟩

/-! ## The remote-sync sequence as shell statements

`remoteSyncTail` is emitted verbatim at the end of every bootstrap script; its
lines are the statements of the remote-sync/override sequence.  We interpret
the four working-directory copy statements over an abstract file state to
settle the override-precedence property. -/

def isSpaceChar (c : Char) : Bool := c = ' ' || c = '\t' || c = '\n' || c = '\r'

def trimChars (cs : List Char) : List Char :=
  ((cs.dropWhile isSpaceChar).reverse.dropWhile isSpaceChar).reverse

/-- Strip the leading indentation and trailing whitespace of a script line. -/
def stripLine (s : String) : String := String.mk (trimChars s.data)

def splitLinesAux (cs : List Char) (acc : List Char) : List (List Char) :=
  match cs with
  | [] => [acc.reverse]
  | c :: rest =>
      if c = '\n' then acc.reverse :: splitLinesAux rest []
      else splitLinesAux rest (c :: acc)

/-- The lines of a script, in order. -/
def scriptLines (s : String) : List String :=
  (splitLinesAux s.data []).map String.mk

/-- The canonical-copy statement of the remote-sync sequence: copies the helper
scripts and JSON descriptors from the fresh clone into the working directory. -/
def canonicalCopyLine : String :=
  "cp istio-code/release/pipeline/*sh istio-code/release/gcb/json_parse_shared.sh istio-code/release/gcb/*json ."

/-- The three staged-override copy statements: copy per-build override files
from the remote path into the working directory, overwriting. -/
def overridePipelineShLine : String :=
  "gsutil -mq cp \"gs://$\x7bCB_GCS_RELEASE_TOOLS_PATH\x7d\"/pipeline/*sh ."

def overrideGcbJsonLine : String :=
  "gsutil -mq cp \"gs://$\x7bCB_GCS_RELEASE_TOOLS_PATH\x7d\"/gcb/*json ."

def overrideJsonSharedLine : String :=
  "gsutil -mq cp \"gs://$\x7bCB_GCS_RELEASE_TOOLS_PATH\x7d\"/gcb/json_parse_shared.sh ."

/-- A file name matched by the `*sh` glob of the copy statements. -/
def matchesShGlob (n : String) : Bool := pyEndsWith n "sh"

/-- A file name matched by the `*json` glob of the copy statements. -/
def matchesJsonGlob (n : String) : Bool := pyEndsWith n "json"

/-- A file name matched by the canonical `cp` statement's three arguments. -/
def matchesCanonicalGlobs (n : String) : Bool :=
  matchesShGlob n || matchesJsonGlob n || n == "json_parse_shared.sh"

/-- Modelled from the spec (§4.4 step 5, external shell semantics): a copy
statement writes every file of its source map into the working directory,
overwriting files of the same name; other files keep their previous content. -/
def copyInto (src wd : String → Option String) : String → Option String :=
  fun n =>
    match src n with
    | some v => some v
    | none => wd n

/-- The source map of a copy statement restricted to the names its glob
patterns match. -/
def restrictTo (pat : String → Bool) (files : String → Option String) :
    String → Option String :=
  fun n => if pat n then files n else none

/-- Modelled from the spec (external shell semantics): the effect of one line
of the remote-sync sequence on the working directory.  `canonical` maps a file
name to its content in the fresh clone's helper directories; `staged` maps a
file name to its content at the per-build override remote path.  The four copy
statements write the working directory; every other line leaves it unchanged
(no other statement of the sequence writes into `.`). -/
def lineEffect (canonical staged : String → Option String)
    (wd : String → Option String) (line : String) : String → Option String :=
  if stripLine line = canonicalCopyLine then
    copyInto (restrictTo matchesCanonicalGlobs canonical) wd
  else if stripLine line = overridePipelineShLine then
    copyInto (restrictTo matchesShGlob staged) wd
  else if stripLine line = overrideGcbJsonLine then
    copyInto (restrictTo matchesJsonGlob staged) wd
  else if stripLine line = overrideJsonSharedLine then
    copyInto (restrictTo (fun n => n == "json_parse_shared.sh") staged) wd
  else wd

/-- Run the statements of a script over a working directory, in order. -/
def runScript (canonical staged wd : String → Option String)
    (lines : List String) : String → Option String :=
  lines.foldl (lineEffect canonical staged) wd

theorem runScript_remoteSyncTail (canonical staged wd : String → Option String) :
    runScript canonical staged wd (scriptLines remoteSyncTail)
      = copyInto (restrictTo (fun n => n == "json_parse_shared.sh") staged)
          (copyInto (restrictTo matchesJsonGlob staged)
            (copyInto (restrictTo matchesShGlob staged)
              (copyInto (restrictTo matchesCanonicalGlobs canonical) wd))) := by
  rfl

/-! ## Remaining helper lemmas -/

theorem dictGet_isSome_iff_mem_keys (d : DictS) (k : String) :
    (dictGet d k).isSome = true ↔ k ∈ dictKeys d := by
  induction d with
  | nil => simp [dictGet, dictKeys]
  | cons p rest ih =>
      obtain ⟨k1, v1⟩ := p
      by_cases h : k = k1 <;> simp [dictGet, dictKeys, h, ih]

theorem mergeOneLayer_isSome (env acc : DictS) (L : DictS) (k : String) :
    (dictGet (mergeOneLayer env acc L) k).isSome
      = ((dictGet L k).isSome || (dictGet acc k).isSome) := by
  induction L generalizing acc with
  | nil => simp [mergeOneLayer, dictGet]
  | cons p rest ih =>
      obtain ⟨k1, v1⟩ := p
      rw [mergeOneLayer, ih]
      by_cases h : k = k1 <;> simp [dictGet, dictGet_dictInsert, h]

theorem mergeAllLayers_isSome (env acc : DictS) (layers : List DictS) (k : String) :
    (dictGet (mergeAllLayers env acc layers) k).isSome = true ↔
      ((∃ L ∈ layers, (dictGet L k).isSome = true)
        ∨ (dictGet acc k).isSome = true) := by
  induction layers generalizing acc with
  | nil => simp [mergeAllLayers]
  | cons L rest ih =>
      rw [mergeAllLayers, ih, mergeOneLayer_isSome]
      simp only [List.mem_cons, Bool.or_eq_true]
      constructor
      · rintro (⟨M, hM, hMk⟩ | hL | hacc)
        · exact Or.inl ⟨M, Or.inr hM, hMk⟩
        · exact Or.inl ⟨L, Or.inl rfl, hL⟩
        · exact Or.inr hacc
      · rintro (⟨M, rfl | hM, hMk⟩ | hacc)
        · exact Or.inr (Or.inl hMk)
        · exact Or.inl ⟨M, hM, hMk⟩
        · exact Or.inr (Or.inr hacc)

theorem exportStatement_injective : Function.Injective exportStatement := by
  intro a b h
  have hlen : a.length = b.length := by
    have hl := congrArg String.length h
    simp only [exportStatement, String.length_append] at hl
    omega
  have hdata := congrArg String.data h
  simp only [exportStatement, String.data_append, List.append_assoc] at hdata
  have h1 := List.append_cancel_left hdata
  have hlen2 : a.data.length = b.data.length := hlen
  have h2 := (List.append_inj h1 hlen2).1
  cases a
  cases b
  simp_all

/-! ## Claim C1 -/

/-- C1: for every key `k` present in at least one configuration layer, if the
environment-override mapping holds a present and non-empty value for `k`, the
merge result maps `k` to that environment value regardless of the layers; if
the environment value is absent or empty, the result maps `k` to the value of
the last layer (in argument order) defining `k`. -/
theorem merge_env_override_precedence
    (env_conf : DictS) (config_dicts : List DictS) (k : String)
    (hwf : ∀ L ∈ config_dicts, WellFormedDict L)
    (hpresent : ∃ L ∈ config_dicts, (dictGet L k).isSome = true) :
    (∀ v, dictGet env_conf k = some v → v ≠ "" →
      dictGet (MergeEnvironmentIntoConfig env_conf config_dicts) k = some v)
    ∧ ((dictGet env_conf k = none ∨ dictGet env_conf k = some "") →
      dictGet (MergeEnvironmentIntoConfig env_conf config_dicts) k
        = lastLayerValue config_dicts k) := by
  obtain ⟨w, hw⟩ := Option.isSome_iff_exists.mp
    ((lastLayerValue_isSome_iff config_dicts k).mpr hpresent)
  have hm := mergeAllLayers_get env_conf [] config_dicts k hwf
  unfold MergeEnvironmentIntoConfig
  constructor
  · intro v hv hne
    rw [hm, hw]
    simp [pyOr, hv, hne]
  · intro henv
    rw [hm, hw]
    rcases henv with h | h <;> simp [pyOr, h]

theorem merge_env_override_precedence_witness :
    (∀ L ∈ ([[("K", "a"), ("J", "x")], [("K", "b")]] : List DictS), WellFormedDict L)
    ∧ (∃ L ∈ ([[("K", "a"), ("J", "x")], [("K", "b")]] : List DictS),
        (dictGet L "K").isSome = true)
    ∧ ((∀ v, dictGet [("K", "E")] "K" = some v → v ≠ "" →
        dictGet (MergeEnvironmentIntoConfig [("K", "E")]
          [[("K", "a"), ("J", "x")], [("K", "b")]]) "K" = some v)
      ∧ ((dictGet [("K", "E")] "K" = none ∨ dictGet [("K", "E")] "K" = some "") →
        dictGet (MergeEnvironmentIntoConfig [("K", "E")]
          [[("K", "a"), ("J", "x")], [("K", "b")]]) "K"
          = lastLayerValue [[("K", "a"), ("J", "x")], [("K", "b")]] "K")) :=
  ⟨by decide, by decide,
    merge_env_override_precedence [("K", "E")]
      [[("K", "a"), ("J", "x")], [("K", "b")]] "K" (by decide) (by decide)⟩

/-! ## Claim C4 -/

/-- C4: for every key `k` absent from (or empty in) the environment-override
mapping and defined by two layers passed in order, the merge maps `k` to the
second layer's value; and on the spec's end-to-end scenario the merge of
`defaults={A:1, B:2}` and `pipelineOverrides={B:3}` under an empty env
override is `{A:1, B:3}`. -/
theorem merge_later_layer_wins
    (env_conf L1 L2 : DictS) (k v1 v2 : String)
    (hwf1 : WellFormedDict L1) (hwf2 : WellFormedDict L2)
    (henv : dictGet env_conf k = none ∨ dictGet env_conf k = some "")
    (h1 : dictGet L1 k = some v1) (h2 : dictGet L2 k = some v2) :
    dictGet (MergeEnvironmentIntoConfig env_conf [L1, L2]) k = some v2
    ∧ MergeEnvironmentIntoConfig [] [[("A", "1"), ("B", "2")], [("B", "3")]]
        = [("A", "1"), ("B", "3")] := by
  constructor
  · have hwf : ∀ L ∈ [L1, L2], WellFormedDict L := by
      intro M hM
      rcases List.mem_cons.mp hM with rfl | hM2
      · exact hwf1
      · rcases List.mem_cons.mp hM2 with rfl | hM3
        · exact hwf2
        · exact absurd hM3 (List.not_mem_nil M)
    have hm := mergeAllLayers_get env_conf [] [L1, L2] k hwf
    have hlast : lastLayerValue [L1, L2] k = some v2 := by
      simp [lastLayerValue, h2]
    unfold MergeEnvironmentIntoConfig
    rw [hm, hlast]
    rcases henv with h | h <;> simp [pyOr, h]
  · decide

theorem merge_later_layer_wins_witness :
    WellFormedDict [("K", "1")] ∧ WellFormedDict [("K", "2")]
    ∧ (dictGet [("K", "")] "K" = none ∨ dictGet [("K", "")] "K" = some "")
    ∧ dictGet [("K", "1")] "K" = some "1" ∧ dictGet [("K", "2")] "K" = some "2"
    ∧ (dictGet (MergeEnvironmentIntoConfig [("K", "")] [[("K", "1")], [("K", "2")]]) "K"
        = some "2"
      ∧ MergeEnvironmentIntoConfig [] [[("A", "1"), ("B", "2")], [("B", "3")]]
          = [("A", "1"), ("B", "3")]) :=
  ⟨by decide, by decide, by decide, by decide, by decide,
    merge_later_layer_wins [("K", "")] [("K", "1")] [("K", "2")] "K" "1" "2"
      (by decide) (by decide) (by decide) (by decide) (by decide)⟩

/-! ## Claim C10 -/

/-- C10: the key set of the merge result is exactly the union of the layers'
key sets; a key present only in the environment-override mapping and in no
layer never appears in the result. -/
theorem merge_keys_union_of_layer_keys
    (env_conf : DictS) (config_dicts : List DictS) (k : String) :
    k ∈ dictKeys (MergeEnvironmentIntoConfig env_conf config_dicts) ↔
      ∃ L ∈ config_dicts, k ∈ dictKeys L := by
  rw [← dictGet_isSome_iff_mem_keys]
  unfold MergeEnvironmentIntoConfig
  rw [mergeAllLayers_isSome]
  simp [dictGet, dictGet_isSome_iff_mem_keys]

/-! ## Claim C5 -/

/-- C5: the builder places each key's export statement in exactly one of the
two blocks, the cross-boundary heredoc block iff the key starts with the fixed
literal `CB_`, otherwise the local export block, determined solely by the
prefix test; in particular `CB_GITHUB_ORG` is cross-boundary and
`LOCAL_TMP_DIR` is local-only. -/
theorem export_partition_by_CB_namespace
    (knownKeys extra_param_lst : List String) (k : String) :
    (exportStatement k ∈ gcbExportLines (buildKeys knownKeys extra_param_lst) ↔
      (k ∈ buildKeys knownKeys extra_param_lst ∧ pyStartsWith k "CB_" = true))
    ∧ (exportStatement k ∈ localExportLines (buildKeys knownKeys extra_param_lst) ↔
      (k ∈ buildKeys knownKeys extra_param_lst ∧ pyStartsWith k "CB_" = false))
    ∧ pyStartsWith "CB_GITHUB_ORG" "CB_" = true
    ∧ pyStartsWith "LOCAL_TMP_DIR" "CB_" = false := by
  refine ⟨?_, ?_, by decide, by decide⟩
  · rw [gcbExportLines, List.mem_map_of_injective exportStatement_injective,
      List.mem_filter]
  · rw [localExportLines, List.mem_map_of_injective exportStatement_injective,
      List.mem_filter]
    simp

/-! ## Claim C6 -/

/-- C6 counterexample: the builder does not union the key lists into one set;
it concatenates them, keeping duplicates.  With `CB_EXTRA` among the known
keys and `extra_param_lst = ["CB_EXTRA"]`, the cross-boundary export block
contains the `CB_EXTRA` export statement twice, not exactly once. -/
theorem buildKeys_no_dedup_counterexample :
    buildKeys ["CB_EXTRA"] ["CB_EXTRA"] = ["CB_EXTRA", "CB_EXTRA"]
    ∧ List.count (exportStatement "CB_EXTRA")
        (gcbExportLines (buildKeys ["CB_EXTRA"] ["CB_EXTRA"])) = 2 := by
  constructor
  · decide
  · decide

/-- C6 (amended): the builder appends the extra keys to the known keys
(duplicates preserved) and sorts the result lexicographically; for a chain
built with `extraKeys = ["CB_EXTRA"]` where `CB_EXTRA` is not among the known
keys, the cross-boundary block contains the `CB_EXTRA` export statement
exactly once, and the block's keys are in sorted order. -/
theorem extra_key_export_once_sorted
    (knownKeys : List String) (hnew : "CB_EXTRA" ∉ knownKeys) :
    List.count (exportStatement "CB_EXTRA")
        (gcbExportLines (buildKeys knownKeys ["CB_EXTRA"])) = 1
    ∧ List.Sorted (fun a b => pyLe a b = true)
        ((buildKeys knownKeys ["CB_EXTRA"]).filter (fun k => pyStartsWith k "CB_"))
    ∧ gcbExportLines (buildKeys knownKeys ["CB_EXTRA"])
        = ((buildKeys knownKeys ["CB_EXTRA"]).filter
            (fun k => pyStartsWith k "CB_")).map exportStatement := by
  refine ⟨?_, ?_, rfl⟩
  · rw [gcbExportLines,
      List.count_map_of_injective _ _ exportStatement_injective,
      List.count_filter (by decide)]
    unfold buildKeys
    rw [(List.perm_insertionSort _ _).count_eq]
    rw [List.count_append]
    rw [List.count_eq_zero.mpr hnew]
    decide
  · exact List.Pairwise.sublist (List.filter_sublist _)
      (List.sorted_insertionSort _ _)

theorem extra_key_export_once_sorted_witness :
    "CB_EXTRA" ∉ ["CB_AAA", "CB_ZZZ", "LOCAL_TMP_DIR"]
    ∧ (List.count (exportStatement "CB_EXTRA")
        (gcbExportLines (buildKeys ["CB_AAA", "CB_ZZZ", "LOCAL_TMP_DIR"] ["CB_EXTRA"])) = 1
      ∧ List.Sorted (fun a b => pyLe a b = true)
          ((buildKeys ["CB_AAA", "CB_ZZZ", "LOCAL_TMP_DIR"] ["CB_EXTRA"]).filter
            (fun k => pyStartsWith k "CB_"))
      ∧ gcbExportLines (buildKeys ["CB_AAA", "CB_ZZZ", "LOCAL_TMP_DIR"] ["CB_EXTRA"])
          = ((buildKeys ["CB_AAA", "CB_ZZZ", "LOCAL_TMP_DIR"] ["CB_EXTRA"]).filter
              (fun k => pyStartsWith k "CB_")).map exportStatement) :=
  ⟨by decide,
    extra_key_export_once_sorted ["CB_AAA", "CB_ZZZ", "LOCAL_TMP_DIR"] (by decide)⟩

/-! ## Claim C7 -/

/-- C7: bootstrap-script generation is deterministic in the key set: two
invocations of the builder whose combined known+extra key lists agree as
multisets (in particular, two invocations on identical inputs) produce
byte-identical script text, because the builder sorts the keys. -/
theorem template_depends_only_on_key_multiset
    (known1 extra1 known2 extra2 : List String)
    (hperm : (known1 ++ extra1).Perm (known2 ++ extra2)) :
    getBashSettingsTemplate known1 extra1 = getBashSettingsTemplate known2 extra2 := by
  have hkeys : buildKeys known1 extra1 = buildKeys known2 extra2 :=
    List.eq_of_perm_of_sorted
      ((List.perm_insertionSort _ _).trans
        (hperm.trans (List.perm_insertionSort _ _).symm))
      (List.sorted_insertionSort _ _) (List.sorted_insertionSort _ _)
  rw [getBashSettingsTemplate, getBashSettingsTemplate, templateList, templateList,
    hkeys]

theorem template_depends_only_on_key_multiset_witness :
    (["LOCAL_B", "CB_A"] ++ []).Perm (["CB_A"] ++ ["LOCAL_B"])
    ∧ getBashSettingsTemplate ["LOCAL_B", "CB_A"] []
        = getBashSettingsTemplate ["CB_A"] ["LOCAL_B"] :=
  ⟨by decide,
    template_depends_only_on_key_multiset ["LOCAL_B", "CB_A"] [] ["CB_A"] ["LOCAL_B"]
      (by decide)⟩

/-! ## Claim C8 -/

/-- Modelled from the spec (§6): the external task-runner guarantees
at-least-once execution per step up to its retry budget.  A step whose failure
persists for the first `failures` attempts and then clears is observed to run
`min (failures + 1) (retries + 1)` attempts. -/
def observedAttempts (retries failures : Nat) : Nat :=
  min (failures + 1) (retries + 1)

/-- C8: the test-execution step `run_release_qualification_tests` is built
with `retries=0`, every other shell-executing step inherits the shared policy
of 1 retry with a 5-minute backoff, and under one transient failure the test
step runs 1 attempt while a step with the shared policy runs 2. -/
theorem test_step_exempt_from_retry_policy
    (knownKeys : List String) (name schedule_interval : String)
    (extra_param_lst : List String) :
    ((MakeCommonDag knownKeys name schedule_interval extra_param_lst).findTask
        "run_release_qualification_tests").map AirflowTask.retries = some 0
    ∧ ((MakeCommonDag knownKeys name schedule_interval extra_param_lst).tasks.all
        (fun t => !(t.kind == OperatorKind.bashOp)
          || (t.task_id == "run_release_qualification_tests")
          || ((t.retries == default_args.retries)
              && (t.retry_delay_minutes == default_args.retry_delay_minutes)))) = true
    ∧ default_args.retries = 1
    ∧ default_args.retry_delay_minutes = 5
    ∧ observedAttempts 0 1 = 1
    ∧ observedAttempts 1 1 = 2 :=
  ⟨rfl, rfl, rfl, rfl, rfl, rfl⟩

/-! ## Claim C9 -/

/-- C9: the artifact-copy step `copy_files_for_release` takes its source
bucket, source object and destination bucket as three independent deferred
accessor references to exactly the fields `CB_GCS_BUILD_BUCKET`,
`CB_GCS_STAGING_PATH` and `CB_GCS_STAGING_BUCKET`, passes no destination
object (the copied object keeps its name), and each reference is the deferred
xcom-pull template text, not an eager literal value. -/
theorem copy_step_uses_deferred_setting_refs
    (knownKeys : List String) (name schedule_interval : String)
    (extra_param_lst : List String) :
    (MakeCommonDag knownKeys name schedule_interval extra_param_lst).findTask
        "copy_files_for_release" = some copy_files_task
    ∧ copy_files_task.source_bucket = some (GetSettingTemplate "CB_GCS_BUILD_BUCKET")
    ∧ copy_files_task.source_object = some (GetSettingTemplate "CB_GCS_STAGING_PATH")
    ∧ copy_files_task.destination_bucket
        = some (GetSettingTemplate "CB_GCS_STAGING_BUCKET")
    ∧ copy_files_task.destination_object = none
    ∧ GetSettingTemplate "CB_GCS_BUILD_BUCKET"
        = "\x7b\x7b task_instance.xcom_pull(task_ids=\"generate_workflow_args\").CB_GCS_BUILD_BUCKET \x7d\x7d"
    ∧ GetSettingTemplate "CB_GCS_STAGING_PATH"
        = "\x7b\x7b task_instance.xcom_pull(task_ids=\"generate_workflow_args\").CB_GCS_STAGING_PATH \x7d\x7d"
    ∧ GetSettingTemplate "CB_GCS_STAGING_BUCKET"
        = "\x7b\x7b task_instance.xcom_pull(task_ids=\"generate_workflow_args\").CB_GCS_STAGING_BUCKET \x7d\x7d" :=
  ⟨rfl, rfl, rfl, rfl, rfl, rfl, rfl, rfl⟩

/-! ## Claim C2 -/

/-- C2 counterexample: `MakeCommonDag` declares no dependency edges at all; in
the DAG it builds, the shell step `get_git_commit` has an empty upstream list,
so it is false that every shell-executing step has a dependency edge on the
settings-resolver step `generate_workflow_args`. -/
theorem makeCommonDag_no_resolver_edge_counterexample :
    ¬ (∀ t ∈ (MakeCommonDag ["CB_A"] "istio_common" "15 9 * * *" []).tasks,
        t.kind = OperatorKind.bashOp → "generate_workflow_args" ∈ t.upstream) := by
  intro h
  have hmem : addAirflowBashOperator (getBashSettingsTemplate ["CB_A"] [])
      "get_git_commit_cmd" "get_git_commit" none
      ∈ (MakeCommonDag ["CB_A"] "istio_common" "15 9 * * *" []).tasks := by
    simp [MakeCommonDag]
  have := h _ hmem rfl
  simp [addAirflowBashOperator] at this

/-- C2 (amended): `MakeCommonDag` constructs every task, shell steps included,
with no upstream dependency edge; each shell step instead references the
settings-resolver output only through its command text, which begins with the
bootstrap template whose first line pulls the mapping published by
`generate_workflow_args`.  (Dependency edges must be added by callers through
the returned task table; ordering is not enforced by the factory itself.) -/
theorem makeCommonDag_no_edges_template_references_resolver
    (knownKeys : List String) (name schedule_interval : String)
    (extra_param_lst : List String) (t : AirflowTask)
    (ht : t ∈ (MakeCommonDag knownKeys name schedule_interval extra_param_lst).tasks) :
    t.upstream = []
    ∧ (t.kind = OperatorKind.bashOp →
        ∃ stepText, t.bash_command
          = some (getBashSettingsTemplate knownKeys extra_param_lst ++ "\n" ++ stepText))
    ∧ (∃ rest, getBashSettingsTemplate knownKeys extra_param_lst
        = template_settings_line ++ rest)
    ∧ template_settings_line
        = "\x7b% set settings = task_instance.xcom_pull(task_ids=\x27generate_workflow_args\x27) %\x7d" := by
  refine ⟨?_, ?_, ?_, rfl⟩
  · simp only [MakeCommonDag, List.mem_cons, List.not_mem_nil, or_false] at ht
    rcases ht with rfl | rfl | rfl | rfl | rfl | rfl <;> rfl
  · intro hkind
    simp only [MakeCommonDag, List.mem_cons, List.not_mem_nil, or_false] at ht
    rcases ht with rfl | rfl | rfl | rfl | rfl | rfl
    · exact absurd hkind (by decide)
    · exact ⟨_, rfl⟩
    · exact ⟨_, rfl⟩
    · exact ⟨_, rfl⟩
    · exact ⟨_, rfl⟩
    · exact absurd hkind (by decide)
  · refine ⟨"\n" ++ pyJoin "\n" (gcb_env_open ::
      (gcbExportLines (buildKeys knownKeys extra_param_lst)
        ++ [gcb_env_suffix]
        ++ localExportLines (buildKeys knownKeys extra_param_lst)
        ++ [remoteSyncTail])), ?_⟩
    exact String.append_assoc _ _ _

theorem makeCommonDag_no_edges_template_references_resolver_witness :
    (addAirflowBashOperator (getBashSettingsTemplate ["CB_A"] [])
        "get_git_commit_cmd" "get_git_commit" none
      ∈ (MakeCommonDag ["CB_A"] "istio_common" "15 9 * * *" []).tasks)
    ∧ ((addAirflowBashOperator (getBashSettingsTemplate ["CB_A"] [])
          "get_git_commit_cmd" "get_git_commit" none).upstream = []
      ∧ ((addAirflowBashOperator (getBashSettingsTemplate ["CB_A"] [])
            "get_git_commit_cmd" "get_git_commit" none).kind = OperatorKind.bashOp →
          ∃ stepText, (addAirflowBashOperator (getBashSettingsTemplate ["CB_A"] [])
              "get_git_commit_cmd" "get_git_commit" none).bash_command
            = some (getBashSettingsTemplate ["CB_A"] [] ++ "\n" ++ stepText))
      ∧ (∃ rest, getBashSettingsTemplate ["CB_A"] []
          = template_settings_line ++ rest)
      ∧ template_settings_line
          = "\x7b% set settings = task_instance.xcom_pull(task_ids=\x27generate_workflow_args\x27) %\x7d") :=
  ⟨by simp [MakeCommonDag],
    makeCommonDag_no_edges_template_references_resolver ["CB_A"] "istio_common"
      "15 9 * * *" [] _ (by simp [MakeCommonDag])⟩

/-! ## Claim C3 -/

/-- C3: in the remote-sync sequence of every bootstrap script, the statement
copying canonical helper scripts and JSON descriptors from the fresh clone
appears strictly before the statements copying staged per-build override files
from the remote path; consequently, for a canonical file and a staged override
file of the same name, the final working-directory content is the override's,
never the canonical's (and with no staged override, the canonical content
survives). -/
theorem override_copy_wins_over_canonical
    (canonical staged wd : String → Option String) (n c o : String)
    (hc : canonical n = some c) (ho : staged n = some o)
    (hglob : matchesShGlob n = true ∨ matchesJsonGlob n = true) :
    runScript canonical staged wd (scriptLines remoteSyncTail) n = some o
    ∧ runScript canonical (fun _ => none) wd (scriptLines remoteSyncTail) n = some c
    ∧ ((scriptLines remoteSyncTail).findIdx (fun l => stripLine l == canonicalCopyLine)
        < (scriptLines remoteSyncTail).findIdx (fun l => stripLine l == overridePipelineShLine)
      ∧ (scriptLines remoteSyncTail).findIdx (fun l => stripLine l == canonicalCopyLine)
        < (scriptLines remoteSyncTail).findIdx (fun l => stripLine l == overrideGcbJsonLine)
      ∧ (scriptLines remoteSyncTail).findIdx (fun l => stripLine l == canonicalCopyLine)
        < (scriptLines remoteSyncTail).findIdx (fun l => stripLine l == overrideJsonSharedLine)) := by
  refine ⟨?_, ?_, by decide, by decide, by decide⟩
  · rw [runScript_remoteSyncTail]
    by_cases hp : (n == "json_parse_shared.sh") = true
    · simp [copyInto, restrictTo, hp, ho]
    · by_cases hj : matchesJsonGlob n = true
      · simp [copyInto, restrictTo, hp, hj, ho]
      · have hsh : matchesShGlob n = true := by
          rcases hglob with h | h
          · exact h
          · exact absurd h hj
        simp [copyInto, restrictTo, hp, hj, hsh, ho]
  · rw [runScript_remoteSyncTail]
    have hcan : matchesCanonicalGlobs n = true := by
      rcases hglob with h | h <;> simp [matchesCanonicalGlobs, h]
    simp [copyInto, restrictTo, hcan, hc]

theorem override_copy_wins_over_canonical_witness :
    ((fun m => if m = "istio_pipeline.sh" then some "canonical-content" else none)
        "istio_pipeline.sh" = some "canonical-content")
    ∧ ((fun m => if m = "istio_pipeline.sh" then some "override-content" else none)
        "istio_pipeline.sh" = some "override-content")
    ∧ (matchesShGlob "istio_pipeline.sh" = true
        ∨ matchesJsonGlob "istio_pipeline.sh" = true)
    ∧ (runScript
          (fun m => if m = "istio_pipeline.sh" then some "canonical-content" else none)
          (fun m => if m = "istio_pipeline.sh" then some "override-content" else none)
          (fun _ => none) (scriptLines remoteSyncTail) "istio_pipeline.sh"
          = some "override-content"
      ∧ runScript
          (fun m => if m = "istio_pipeline.sh" then some "canonical-content" else none)
          (fun _ => none)
          (fun _ => none) (scriptLines remoteSyncTail) "istio_pipeline.sh"
          = some "canonical-content"
      ∧ ((scriptLines remoteSyncTail).findIdx (fun l => stripLine l == canonicalCopyLine)
          < (scriptLines remoteSyncTail).findIdx (fun l => stripLine l == overridePipelineShLine)
        ∧ (scriptLines remoteSyncTail).findIdx (fun l => stripLine l == canonicalCopyLine)
          < (scriptLines remoteSyncTail).findIdx (fun l => stripLine l == overrideGcbJsonLine)
        ∧ (scriptLines remoteSyncTail).findIdx (fun l => stripLine l == canonicalCopyLine)
          < (scriptLines remoteSyncTail).findIdx (fun l => stripLine l == overrideJsonSharedLine))) :=
  ⟨rfl, rfl, Or.inl (by decide),
    override_copy_wins_over_canonical
      (fun m => if m = "istio_pipeline.sh" then some "canonical-content" else none)
      (fun m => if m = "istio_pipeline.sh" then some "override-content" else none)
      (fun _ => none) "istio_pipeline.sh" "canonical-content" "override-content"
      rfl rfl (Or.inl (by decide))⟩
